import Mathlib

-- =============================================================================
-- Shallow embedding of src/eproc_scraper.py (EPROC TJMG web scraper).
-- Python dicts are modelled as ordered association lists with Python
-- assignment semantics (overwrite the entry in place when the key is present,
-- otherwise append); the browser is modelled as an oracle describing what
-- each navigation step finds.
-- =============================================================================

/-- URL constant EPROC_URL (line 41 of the source). -/
def EPROC_URL : String :=
  "https://eproc-consulta-publica-1g.tjmg.jus.br/eproc/externo_controlador.php?acao=processo_consulta_publica"

/-- Query-name list NOMES_CONSULTA (lines 44-52 of the source). -/
def NOMES_CONSULTA : List String :=
  ["ADILSON DA SILVA", "JOÃO DA SILVA MORAES", "RICARDO DE JESUS",
   "SERGIO FIRMINO DA SILVA", "HELENA FARIAS DE LIMA", "PAULO SALIM MALUF",
   "PEDRO DE SÁ"]

/-- Python dict assignment d[k] = v on an ordered association list: overwrite
the entry in place when the key is present, otherwise append at the end. -/
def pyDictInsert {α : Type} : List (String × α) → String → α → List (String × α)
  | [], k, v => [(k, v)]
  | p :: d, k, v => if p.1 = k then (k, v) :: d else p :: pyDictInsert d k v

/-- Python dict lookup d.get(k): value of the first entry keyed k, if any. -/
def pyDictGet {α : Type} : List (String × α) → String → Option α
  | [], _ => none
  | p :: d, k => if p.1 = k then some p.2 else pyDictGet d k

/-- One extracted case: the dict processo_info (field name → field value). -/
abbrev CaseRecord := List (String × String)

/-- The run-level store self.resultados: query name → list of case records. -/
abbrev Store := List (String × List CaseRecord)

/-- An anchor element: its visible text and its href attribute. -/
structure Ancora where
  text : String
  href : String

/-- A table cell; ancora is its first inner anchor, when one exists. -/
structure Celula where
  ancora : Option Ancora

/-- A results-table row; celula is its first td (none for header rows). -/
structure Linha where
  celula : Option Celula

/-- Page state after a search: whether the explicit no-results label
(divInfraAreaTabela/label, line 259) is present, and the results table
(divInfraAreaTabela/table, line 268), when present. -/
structure PaginaBusca where
  semResultados : Bool
  tabela : Option (List Linha)

/-- A descendant element of a field block: its tag_name and its text. -/
structure Elemento where
  tag_name : String
  text : String

/-- Row scan of the results table (lines 277-294): take the first td of the
row (skip the row when absent), its first anchor (any failure is caught and
the row skipped), and keep the href exactly when the anchor text equals the
queried name. -/
def coletar_links (linhas : List Linha) (nome_consultado : String) : List String :=
  linhas.filterMap fun linha =>
    match linha.celula with
    | none => none
    | some c =>
      match c.ancora with
      | none => none
      | some a => if a.text = nome_consultado then some a.href else none

/-- Anchor of a row, when the row has a cell holding one. -/
def ancoraDaLinha (l : Linha) : Option Ancora :=
  l.celula.bind Celula.ancora

/-- Results Locator as the spec words it (claim C4 refinement target): the
target URLs of the anchors whose visible text equals the query, in row
order. -/
def specLocatorLinks (linhas : List Linha) (nome : String) : List String :=
  ((linhas.filterMap ancoraDaLinha).filter fun a => a.text = nome).map Ancora.href

/-- One step of the element scan inside a div (lines 327-333): tag label sets
the pending key, tag span sets the pending value, anything else is ignored. -/
def scanStep (kv : String × String) (e : Elemento) : String × String :=
  if e.tag_name = "label" then (e.text, kv.2)
  else if e.tag_name = "span" then (kv.1, e.text)
  else kv

/-- Element scan of one div of the fldAssuntos capa (lines 325-333), starting
from the two empty strings chave = "" and valor = "". -/
def scanDiv (elements : List Elemento) : String × String :=
  elements.foldl scanStep ("", "")

/-- The div loop over the capa (lines 321-334): each div commits exactly one
chave/valor pair into processo_info by dict assignment. -/
def extrair_capa (divs : List (List Elemento)) : CaseRecord :=
  divs.foldl (fun info d => pyDictInsert info (scanDiv d).1 (scanDiv d).2) []

/-- What the world yields when the scraper follows one result link: either the
detail extraction reaches the fldAssuntos divs, or some step of that loop
iteration raises (missing table, missing fldAssuntos container, stale
element). -/
inductive LinkOutcome where
  | ok (divs : List (List Elemento))
  | err

/-- The link loop (lines 296-336) under the function-level handler (lines
339-342): a successful iteration appends one record; an exception escapes the
loop to the handler, which logs and falls through to return the records
accumulated so far. -/
def extractLoop : List LinkOutcome → List CaseRecord → List CaseRecord
  | [], processos => processos
  | LinkOutcome.ok divs :: rest, processos =>
      extractLoop rest (processos ++ [extrair_capa divs])
  | LinkOutcome.err :: _, processos => processos

/-- Link-collection part of extrair_dados_processos (lines 256-294): empty on
the no-results label or on a missing table, otherwise the row scan. -/
def extrair_links (pagina : PaginaBusca) (nome : String) : List String :=
  if pagina.semResultados then []
  else
    match pagina.tabela with
    | none => []
    | some linhas => coletar_links linhas nome

/-- extrair_dados_processos (lines 241-342): empty on the no-results label or
a missing table, otherwise the link loop over the collected links, where lw
tells what following each link finds. -/
def extrair_dados_processos (pagina : PaginaBusca) (nome : String)
    (lw : String → LinkOutcome) : List CaseRecord :=
  if pagina.semResultados then []
  else
    match pagina.tabela with
    | none => []
    | some linhas => extractLoop ((coletar_links linhas nome).map lw) []

/-- Outcome of realizar_busca together with what the search page holds: the
busca either fails (returns False, lines 237-239) or succeeds yielding the
page, with lw describing the detail pages behind each link. -/
inductive SearchStep where
  | buscaFail
  | buscaOk (pagina : PaginaBusca) (lw : String → LinkOutcome)

/-- processar_nome (lines 344-367): on search failure return [] without
touching resultados (lines 357-359); on success extract and commit
resultados[nome] = processos (line 365). Returns the updated store and the
returned list. -/
def processar_nome (resultados : Store) (nome : String) :
    SearchStep → Store × List CaseRecord
  | SearchStep.buscaFail => (resultados, [])
  | SearchStep.buscaOk pagina lw =>
      (pyDictInsert resultados nome (extrair_dados_processos pagina nome lw),
       extrair_dados_processos pagina nome lw)

/-- Behaviour of one iteration of the loop of processar_todos_nomes: either
processar_nome runs with a given SearchStep, or the iteration raises and the
except branch (lines 386-388) logs and continues. -/
inductive NameStep where
  | raises
  | runs (s : SearchStep)

/-- One iteration of the loop of processar_todos_nomes (lines 379-388). -/
def applyName (resultados : Store) (nome : String) : NameStep → Store
  | NameStep.raises => resultados
  | NameStep.runs s => (processar_nome resultados nome s).1

/-- processar_todos_nomes (lines 369-390): run the per-name step over the
input list in order; a raise in one iteration is contained per name. -/
def processar_todos_nomes (resultados : Store) (nomes : List String)
    (oracle : String → NameStep) : Store :=
  match nomes with
  | [] => resultados
  | nome :: rest =>
      processar_todos_nomes (applyName resultados nome (oracle nome)) rest oracle

/-- metadata block of the output document (lines 411-416). -/
structure Metadados where
  data_extracao : String
  total_processos : Nat
  nomes_consultados : List String
  url_fonte : String

/-- dados_saida, the document salvar_resultados writes (lines 410-418). -/
structure DadosSaida where
  metadata : Metadados
  processos : Store

/-- Pure data preparation of salvar_resultados (lines 402-427): the timestamp
is a parameter; total_processos is len(self.resultados). -/
def dados_saida (resultados : Store) (ts : String) : DadosSaida :=
  { metadata :=
      { data_extracao := ts
      , total_processos := resultados.length
      , nomes_consultados := NOMES_CONSULTA
      , url_fonte := EPROC_URL }
  , processos := resultados }

/-- Sum of the lengths of all per-name record lists in a store. -/
def totalRecords (resultados : Store) : Nat :=
  (resultados.map fun p => p.2.length).sum

/-- The dict gerar_relatorio_resumido returns (lines 440-444). -/
structure Resumo where
  total_processos : Nat
  processos_por_nome : List (String × Nat)
  data_geracao : String

/-- gerar_relatorio_resumido (lines 433-446): processos_por_nome is built as
the literal empty dict and never filled. -/
def gerar_relatorio_resumido (resultados : Store) (ts : String) : Resumo :=
  { total_processos := resultados.length
  , processos_por_nome := []
  , data_geracao := ts }

-- ------------------------------------------------------------------
-- Concrete fixtures used by counterexamples and witnesses
-- ------------------------------------------------------------------

/-- A results row whose first cell holds an anchor with the given text and
href. -/
def linhaDe (t h : String) : Linha := ⟨some ⟨some ⟨t, h⟩⟩⟩

/-- A header row: no inner td. -/
def linhaCabecalho : Linha := ⟨none⟩

/-- A post-search page carrying the explicit no-results label. -/
def paginaSemResultados : PaginaBusca := ⟨true, none⟩

/-- Detail divs yielding the single pair Classe → Cível. -/
def divsClasse : List (List Elemento) := [[⟨"label", "Classe"⟩, ⟨"span", "Cível"⟩]]

/-- Detail divs yielding the single pair Assunto → Contrato. -/
def divsAssunto : List (List Elemento) := [[⟨"label", "Assunto"⟩, ⟨"span", "Contrato"⟩]]

/-- A results page with three rows matching the query, linking L1, L2, L3. -/
def pagina3Links : PaginaBusca :=
  ⟨false, some [linhaDe "ADILSON DA SILVA" "L1", linhaDe "ADILSON DA SILVA" "L2",
                linhaDe "ADILSON DA SILVA" "L3"]⟩

/-- A link world where following L2 raises and L1, L3 extract fine. -/
def mundo3Links : String → LinkOutcome := fun l =>
  if l = "L1" then LinkOutcome.ok divsClasse
  else if l = "L2" then LinkOutcome.err
  else LinkOutcome.ok divsAssunto

/-- An oracle under which every search fails (realizar_busca returns False). -/
def oracleBuscaFalha : String → NameStep := fun _ => NameStep.runs SearchStep.buscaFail

/-- An oracle under which every search succeeds on a no-results page. -/
def oracleSemResultados : String → NameStep :=
  fun _ => NameStep.runs (SearchStep.buscaOk paginaSemResultados fun _ => LinkOutcome.err)

/-- A store holding one name with two records. -/
def storeDoisRegistros : Store :=
  [("ADILSON DA SILVA", [[("Classe", "Cível")], [("Classe", "Execução Fiscal")]])]

/-- An oracle under which processing RICARDO DE JESUS raises and every other
search fails. -/
def oracleFalhaRicardo : String → NameStep :=
  fun n => if n = "RICARDO DE JESUS" then NameStep.raises
           else NameStep.runs SearchStep.buscaFail

-- ------------------------------------------------------------------
-- Helper lemmas
-- ------------------------------------------------------------------

/-- Looking up the just-assigned key returns the just-assigned value. -/
theorem pyDictGet_insert_self {α : Type} (d : List (String × α)) (k : String)
    (v : α) : pyDictGet (pyDictInsert d k v) k = some v := by
  induction d with
  | nil => simp [pyDictInsert, pyDictGet]
  | cons p d ih =>
    by_cases h : p.1 = k
    · simp [pyDictInsert, h, pyDictGet]
    · simpa [pyDictInsert, h, pyDictGet] using ih

/-- Assignment under one key leaves lookups of other keys unchanged. -/
theorem pyDictGet_insert_ne {α : Type} (d : List (String × α)) (k : String)
    (v : α) (n : String) (h : n ≠ k) :
    pyDictGet (pyDictInsert d k v) n = pyDictGet d n := by
  have hkn : ¬ k = n := fun hh => h hh.symm
  induction d with
  | nil => simp [pyDictInsert, pyDictGet, hkn]
  | cons p d ih =>
    by_cases hp : p.1 = k
    · simp [pyDictInsert, hp, pyDictGet, hkn]
    · simp [pyDictInsert, hp, pyDictGet, ih]

/-- After an assignment the assigned key is present; presence of any other key
is preserved. -/
theorem pyDictGet_insert_isSome {α : Type} (d : List (String × α)) (k : String)
    (v : α) (n : String) (h : (pyDictGet d n).isSome = true ∨ n = k) :
    (pyDictGet (pyDictInsert d k v) n).isSome = true := by
  by_cases hk : n = k
  · rw [hk, pyDictGet_insert_self]; rfl
  · rw [pyDictGet_insert_ne d k v n hk]
    rcases h with h | h
    · exact h
    · exact absurd h hk

/-- One loop iteration of processar_todos_nomes never removes a present key. -/
theorem applyName_preserves_isSome (st : Store) (nome : String) (s : NameStep)
    (n : String) (h : (pyDictGet st n).isSome = true) :
    (pyDictGet (applyName st nome s) n).isSome = true := by
  cases s with
  | raises => exact h
  | runs s =>
    cases s with
    | buscaFail => exact h
    | buscaOk pagina lw =>
      exact pyDictGet_insert_isSome st nome _ n (Or.inl h)

/-- A full run never removes a present key. -/
theorem processar_todos_nomes_preserves_isSome (nomes : List String) :
    ∀ (st : Store) (oracle : String → NameStep) (n : String),
      (pyDictGet st n).isSome = true →
      (pyDictGet (processar_todos_nomes st nomes oracle) n).isSome = true := by
  induction nomes with
  | nil => intro st oracle n h; exact h
  | cons nome rest ih =>
    intro st oracle n h
    exact ih _ oracle n (applyName_preserves_isSome st nome (oracle nome) n h)

/-- processar_todos_nomes is the left fold of the per-name step. -/
theorem processar_todos_nomes_eq_foldl (nomes : List String) :
    ∀ (st : Store) (oracle : String → NameStep),
      processar_todos_nomes st nomes oracle
        = nomes.foldl (fun s n => applyName s n (oracle n)) st := by
  induction nomes with
  | nil => intro st oracle; rfl
  | cons nome rest ih =>
    intro st oracle
    simpa [processar_todos_nomes] using ih (applyName st nome (oracle nome)) oracle

/-- The first component of the element scan is untouched when no element of
the div has tag label. -/
theorem foldl_scanStep_fst (d : List Elemento) :
    ∀ kv : String × String, (∀ e ∈ d, e.tag_name ≠ "label") →
      (d.foldl scanStep kv).1 = kv.1 := by
  induction d with
  | nil => intro kv _; rfl
  | cons e d ih =>
    intro kv h
    have he : e.tag_name ≠ "label" := h e (List.mem_cons_self e d)
    have hd : ∀ x ∈ d, x.tag_name ≠ "label" :=
      fun x hx => h x (List.mem_cons_of_mem e hx)
    by_cases hs : e.tag_name = "span"
    · simpa [scanStep, he, hs] using ih (kv.1, e.text) hd
    · simpa [scanStep, he, hs] using ih kv hd

-- ------------------------------------------------------------------
-- Claim theorems
-- ------------------------------------------------------------------

/-- C1, counterexample: a run that submitted ADILSON DA SILVA and whose search
for it failed leaves the store empty — the ResultStore entry for the submitted
name is absent, not an empty sequence. -/
theorem c1_counterexample_search_failure :
    processar_todos_nomes [] ["ADILSON DA SILVA"] oracleBuscaFalha = ([] : Store)
    ∧ pyDictGet (processar_todos_nomes [] ["ADILSON DA SILVA"] oracleBuscaFalha)
        "ADILSON DA SILVA" = none :=
  ⟨rfl, rfl⟩

/-- C1, amended: after a run, the ResultStore contains an entry keyed n for
every submitted Query name n whose search step succeeded (even when it yields
zero records); a failed search returns without committing, leaving the store
untouched for that pass. -/
theorem c1_amended_key_present (st : Store) (nomes : List String)
    (oracle : String → NameStep) (n : String) (pagina : PaginaBusca)
    (lw : String → LinkOutcome) (hmem : n ∈ nomes)
    (hstep : oracle n = NameStep.runs (SearchStep.buscaOk pagina lw)) :
    (pyDictGet (processar_todos_nomes st nomes oracle) n).isSome = true
    ∧ ∀ (st2 : Store) (m : String),
        (processar_nome st2 m SearchStep.buscaFail).1 = st2 := by
  refine ⟨?_, fun st2 m => rfl⟩
  induction nomes generalizing st with
  | nil => exact absurd hmem (List.not_mem_nil n)
  | cons nome rest ih =>
    rcases List.mem_cons.mp hmem with hh | hh
    · subst hh
      have hun : processar_todos_nomes st (n :: rest) oracle
          = processar_todos_nomes (applyName st n (oracle n)) rest oracle := rfl
      rw [hun]
      apply processar_todos_nomes_preserves_isSome
      rw [hstep]
      exact pyDictGet_insert_isSome st n _ n (Or.inr rfl)
    · have hun : processar_todos_nomes st (nome :: rest) oracle
          = processar_todos_nomes (applyName st nome (oracle nome)) rest oracle := rfl
      rw [hun]
      exact ih (applyName st nome (oracle nome)) hh

/-- C1, witness for the amended theorem at a concrete input. -/
theorem c1_witness :
    "ADILSON DA SILVA" ∈ ["ADILSON DA SILVA"]
    ∧ ((pyDictGet (processar_todos_nomes [] ["ADILSON DA SILVA"] oracleSemResultados)
          "ADILSON DA SILVA").isSome = true
       ∧ ∀ (st2 : Store) (m : String),
           (processar_nome st2 m SearchStep.buscaFail).1 = st2) :=
  ⟨by decide,
   c1_amended_key_present [] ["ADILSON DA SILVA"] oracleSemResultados
     "ADILSON DA SILVA" paginaSemResultados (fun _ => LinkOutcome.err)
     (by decide) rfl⟩

/-- C2: with three result links matching the query where following the second
one raises (its detail structure is missing), extrair_dados_processos returns
only the first record — the exception escapes the link loop to the
function-level handler, so the third link is never processed, contradicting
the claimed link 1 + link 3 containment. -/
theorem c2_structural_error_aborts_remaining_links :
    extrair_dados_processos pagina3Links "ADILSON DA SILVA" mundo3Links
      = [[("Classe", "Cível")]]
    ∧ extrair_dados_processos pagina3Links "ADILSON DA SILVA" mundo3Links
      ≠ [[("Classe", "Cível")], [("Assunto", "Contrato")]] := by
  exact ⟨rfl, by decide⟩

/-- C3, counterexample: on a store holding one name with two records, the
document metadata field total_processos is 1 (the number of names), not the
sum 2 of the lengths of the QueryResultSets. -/
theorem c3_counterexample_total_processos :
    (dados_saida storeDoisRegistros "2026-10-12").metadata.total_processos
      ≠ totalRecords storeDoisRegistros := by
  decide

/-- C3, amended: the records mapping of the serialized document equals the
ResultStore, but total_processos equals the number of query-name entries of
the ResultStore (len of the mapping), not the sum of the record counts. -/
theorem c3_amended_total_is_name_count (resultados : Store) (ts : String) :
    (dados_saida resultados ts).processos = resultados
    ∧ (dados_saida resultados ts).metadata.total_processos = resultados.length
    ∧ (dados_saida resultados ts).metadata.nomes_consultados = NOMES_CONSULTA
    ∧ (dados_saida resultados ts).metadata.url_fonte = EPROC_URL :=
  ⟨rfl, rfl, rfl, rfl⟩

/-- C4: the Results Locator output is exactly the hrefs of the anchors whose
visible text is string-equal to the queried name, in row order; a header row
(no inner cell) is skipped without contributing a link and without error; on
the concrete two-row table of the claim the output is exactly [L1]. -/
theorem c4_locator_exact_match :
    (∀ (linhas : List Linha) (nome : String),
        coletar_links linhas nome = specLocatorLinks linhas nome)
    ∧ (∀ (linhas : List Linha) (nome : String),
        coletar_links (linhaCabecalho :: linhas) nome = coletar_links linhas nome)
    ∧ coletar_links
        [linhaCabecalho, linhaDe "ADILSON DA SILVA" "L1", linhaDe "OUTRO NOME" "L2"]
        "ADILSON DA SILVA" = ["L1"] := by
  refine ⟨?_, ?_, by decide⟩
  · intro linhas nome
    induction linhas with
    | nil => rfl
    | cons l rest ih =>
      cases hc : l.celula with
      | none =>
        simpa [coletar_links, specLocatorLinks, ancoraDaLinha, hc,
               List.filterMap_cons] using ih
      | some c =>
        cases ha : c.ancora with
        | none =>
          simpa [coletar_links, specLocatorLinks, ancoraDaLinha, hc, ha,
                 List.filterMap_cons] using ih
        | some a =>
          by_cases ht : a.text = nome
          · simpa [coletar_links, specLocatorLinks, ancoraDaLinha, hc, ha, ht,
                   List.filterMap_cons] using ih
          · simpa [coletar_links, specLocatorLinks, ancoraDaLinha, hc, ha, ht,
                   List.filterMap_cons] using ih
  · intro linhas nome
    simp [coletar_links, linhaCabecalho, List.filterMap_cons]

/-- C5: when the explicit no-results label is present on the post-search page,
the link list is empty, extrair_dados_processos returns the empty record list
without error, and processar_nome commits the empty sequence for that name. -/
theorem c5_no_results_empty_commit (st : Store) (nome : String)
    (pagina : PaginaBusca) (lw : String → LinkOutcome)
    (h : pagina.semResultados = true) :
    extrair_links pagina nome = []
    ∧ extrair_dados_processos pagina nome lw = []
    ∧ (processar_nome st nome (SearchStep.buscaOk pagina lw)).1
        = pyDictInsert st nome []
    ∧ pyDictGet (processar_nome st nome (SearchStep.buscaOk pagina lw)).1 nome
        = some [] := by
  have h1 : extrair_dados_processos pagina nome lw = [] := by
    simp [extrair_dados_processos, h]
  refine ⟨by simp [extrair_links, h], h1, ?_, ?_⟩
  · simp [processar_nome, h1]
  · simp [processar_nome, h1, pyDictGet_insert_self]

/-- C5, witness at the concrete no-results page. -/
theorem c5_witness :
    paginaSemResultados.semResultados = true
    ∧ (extrair_links paginaSemResultados "ADILSON DA SILVA" = []
       ∧ extrair_dados_processos paginaSemResultados "ADILSON DA SILVA"
           (fun _ => LinkOutcome.err) = []
       ∧ (processar_nome [] "ADILSON DA SILVA"
            (SearchStep.buscaOk paginaSemResultados fun _ => LinkOutcome.err)).1
           = pyDictInsert [] "ADILSON DA SILVA" []
       ∧ pyDictGet (processar_nome [] "ADILSON DA SILVA"
            (SearchStep.buscaOk paginaSemResultados fun _ => LinkOutcome.err)).1
           "ADILSON DA SILVA" = some []) :=
  ⟨rfl, c5_no_results_empty_commit [] "ADILSON DA SILVA" paginaSemResultados
     (fun _ => LinkOutcome.err) rfl⟩

/-- C6: within a field block, an element of tag label sets the pending field
name, an element of tag span sets the pending field value, any other tag
leaves the scan state unchanged; the two-block page of the claim yields the
record Classe → Cível, Assunto → Contrato. -/
theorem c6_role_classification :
    (∀ (es : List Elemento) (t : String),
        scanDiv (es ++ [⟨"label", t⟩]) = (t, (scanDiv es).2))
    ∧ (∀ (es : List Elemento) (t : String),
        scanDiv (es ++ [⟨"span", t⟩]) = ((scanDiv es).1, t))
    ∧ (∀ (es : List Elemento) (e : Elemento), e.tag_name ≠ "label" →
        e.tag_name ≠ "span" → scanDiv (es ++ [e]) = scanDiv es)
    ∧ extrair_capa [[⟨"label", "Classe"⟩, ⟨"span", "Cível"⟩],
        [⟨"label", "Assunto"⟩, ⟨"span", "Contrato"⟩]]
        = [("Classe", "Cível"), ("Assunto", "Contrato")] := by
  refine ⟨?_, ?_, ?_, by decide⟩
  · intro es t
    simp [scanDiv, List.foldl_append, scanStep]
  · intro es t
    simp [scanDiv, List.foldl_append, scanStep]
  · intro es e h1 h2
    simp [scanDiv, List.foldl_append, scanStep, h1, h2]

/-- C6, witness: an element of another tag is ignored by the scan. -/
theorem c6_witness :
    scanDiv ([⟨"label", "K"⟩] ++ [⟨"div", "x"⟩]) = scanDiv [⟨"label", "K"⟩] :=
  c6_role_classification.2.2.1 [⟨"label", "K"⟩] ⟨"div", "x"⟩ (by decide) (by decide)

/-- C7: every field block commits exactly one chave/valor pair into the record
under construction; a block with no label-tag element commits under the empty
string key without crashing; a repeated label with two values commits only the
last value under that key. -/
theorem c7_block_commit :
    (∀ (divs : List (List Elemento)) (d : List Elemento),
        extrair_capa (divs ++ [d])
          = pyDictInsert (extrair_capa divs) (scanDiv d).1 (scanDiv d).2)
    ∧ (∀ (d : List Elemento), (∀ e ∈ d, e.tag_name ≠ "label") →
        (scanDiv d).1 = "")
    ∧ extrair_capa [[⟨"label", "K"⟩, ⟨"span", "v1"⟩, ⟨"label", "K"⟩, ⟨"span", "v2"⟩]]
        = [("K", "v2")] := by
  refine ⟨?_, ?_, by decide⟩
  · intro divs d
    simp [extrair_capa, List.foldl_append]
  · intro d h
    exact foldl_scanStep_fst d ("", "") h

/-- C7, witness: a block holding only a span commits under the empty key. -/
theorem c7_witness :
    (∀ e ∈ ([⟨"span", "Cível"⟩] : List Elemento), e.tag_name ≠ "label")
    ∧ (scanDiv [⟨"span", "Cível"⟩]).1 = "" :=
  ⟨by decide, c7_block_commit.2.1 [⟨"span", "Cível"⟩] (by decide)⟩

/-- C8: the commit step resultados[nome] = processos overwrites rather than
appends — recording A under X and then B under X leaves exactly B under X —
and recording never alters the entries of other names. -/
theorem c8_record_overwrite (st : Store) (X : String) (A B : List CaseRecord)
    (Y : String) (hY : Y ≠ X) :
    pyDictGet (pyDictInsert (pyDictInsert st X A) X B) X = some B
    ∧ pyDictGet (pyDictInsert st X A) Y = pyDictGet st Y
    ∧ pyDictGet (pyDictInsert (pyDictInsert st X A) X B) Y = pyDictGet st Y :=
  ⟨pyDictGet_insert_self _ X B,
   pyDictGet_insert_ne st X A Y hY,
   by rw [pyDictGet_insert_ne _ X B Y hY, pyDictGet_insert_ne st X A Y hY]⟩

/-- C8, witness at concrete names and result sets. -/
theorem c8_witness :
    ("Y" : String) ≠ "X"
    ∧ (pyDictGet (pyDictInsert (pyDictInsert ([("Y", [])] : Store) "X"
          [[("Classe", "Cível")]]) "X" []) "X" = some []
       ∧ pyDictGet (pyDictInsert ([("Y", [])] : Store) "X"
          [[("Classe", "Cível")]]) "Y" = pyDictGet ([("Y", [])] : Store) "Y"
       ∧ pyDictGet (pyDictInsert (pyDictInsert ([("Y", [])] : Store) "X"
          [[("Classe", "Cível")]]) "X" []) "Y"
          = pyDictGet ([("Y", [])] : Store) "Y") :=
  ⟨by decide,
   c8_record_overwrite [("Y", [])] "X" [[("Classe", "Cível")]] [] "Y" (by decide)⟩

/-- C9: the run is the in-order fold of the per-name step over the whole input
list, and a raise while processing one name leaves that iteration without
effect and continues with the names after it — one name never terminates the
run. -/
theorem c9_error_containment (st : Store) (pre post : List String)
    (nome : String) (oracle : String → NameStep)
    (h : oracle nome = NameStep.raises) :
    processar_todos_nomes st (pre ++ nome :: post) oracle
      = processar_todos_nomes (processar_todos_nomes st pre oracle) post oracle
    ∧ processar_todos_nomes st (pre ++ nome :: post) oracle
      = (pre ++ nome :: post).foldl (fun s n => applyName s n (oracle n)) st := by
  refine ⟨?_, processar_todos_nomes_eq_foldl _ st oracle⟩
  rw [processar_todos_nomes_eq_foldl, processar_todos_nomes_eq_foldl,
      processar_todos_nomes_eq_foldl, List.foldl_append, List.foldl_cons]
  simp [h, applyName]

/-- C9, witness: a raise on the middle of three names still lets the run
continue with the name after it. -/
theorem c9_witness :
    oracleFalhaRicardo "RICARDO DE JESUS" = NameStep.raises
    ∧ (processar_todos_nomes []
         (["ADILSON DA SILVA"] ++ "RICARDO DE JESUS" :: ["PEDRO DE SÁ"])
         oracleFalhaRicardo
       = processar_todos_nomes
           (processar_todos_nomes [] ["ADILSON DA SILVA"] oracleFalhaRicardo)
           ["PEDRO DE SÁ"] oracleFalhaRicardo
       ∧ processar_todos_nomes []
           (["ADILSON DA SILVA"] ++ "RICARDO DE JESUS" :: ["PEDRO DE SÁ"])
           oracleFalhaRicardo
         = (["ADILSON DA SILVA"] ++ "RICARDO DE JESUS" :: ["PEDRO DE SÁ"]).foldl
             (fun s n => applyName s n (oracleFalhaRicardo n)) []) :=
  ⟨rfl,
   c9_error_containment [] ["ADILSON DA SILVA"] ["PEDRO DE SÁ"]
     "RICARDO DE JESUS" oracleFalhaRicardo rfl⟩

/-- C10: for every state of the result store, the dict returned by
gerar_relatorio_resumido has processos_por_nome equal to the empty dict, while
total_processos is the number of names in the store. -/
theorem c10_processos_por_nome_empty (resultados : Store) (ts : String) :
    (gerar_relatorio_resumido resultados ts).processos_por_nome = []
    ∧ (gerar_relatorio_resumido resultados ts).total_processos
        = resultados.length :=
  ⟨rfl, rfl⟩
